import Mathlib

/-!
Verification of the task-list client: a shallow embedding of the shared
task store (TaskProvider in App.tsx), the create screen save handler and
the detail screen fetch handler (AppNavigator.tsx screens), with theorems
checking the specified behaviour of each operation.
-/

namespace TaskApp

/-- Task status enum: the source type is the union of the two string
literals pending and completed. -/
inductive TaskStatus where
  | pending : TaskStatus
  | completed : TaskStatus
deriving DecidableEq, Repr

/-- The Task record from App.tsx: id, title, description, status and a
nullable dueDate string. -/
structure Task where
  id : String
  title : String
  description : String
  status : TaskStatus
  dueDate : Option String
deriving DecidableEq, Repr

/-- A failed HTTP call: either a transport error or a non-2xx status.
Axios rejects uniformly in both cases. -/
inductive ApiError where
  | network : ApiError
  | httpStatus : Nat → ApiError
deriving DecidableEq, Repr

/-- The TaskProvider React state: the tasks array and the isLoading flag. -/
structure StoreState where
  tasks : List Task
  isLoading : Bool
deriving DecidableEq, Repr

/-- Initial provider state: useState gives an empty task list and a false
loading flag. -/
def initialStoreState : StoreState := { tasks := [], isLoading := false }

/-- The setTasks state setter. -/
def setTasks (s : StoreState) (ts : List Task) : StoreState :=
  { s with tasks := ts }

/-- The setIsLoading state setter. -/
def setIsLoading (s : StoreState) (b : Bool) : StoreState :=
  { s with isLoading := b }

/-- The body of fetchTasks after setIsLoading(true): on a successful GET
the response data replaces the tasks array, on failure the tasks array is
untouched; the finally block clears the loading flag in both cases. -/
def applyFetchResponse (s : StoreState) (resp : Except ApiError (List Task)) :
    StoreState :=
  match resp with
  | Except.ok data => setIsLoading (setTasks s data) false
  | Except.error _ => setIsLoading s false

/-- fetchTasks from App.tsx, as a function of the GET /api/tasks response.
Returns the resulting state and whether the connectivity alert was shown
(the catch branch). -/
def fetchTasks (s : StoreState) (resp : Except ApiError (List Task)) :
    StoreState × Bool :=
  (applyFetchResponse (setIsLoading s true) resp,
   match resp with
   | Except.ok _ => false
   | Except.error _ => true)

/-- The POST /api/tasks request body built by the create path: title,
description and a nullable dueDate string. -/
structure CreatePayload where
  title : String
  description : String
  dueDate : Option String
deriving DecidableEq, Repr

/-- createTask from App.tsx: awaits the POST, so a failed POST propagates
its error to the caller before fetchTasks is reached; a successful POST
triggers a full fetchTasks resync. Parameters carry the two HTTP
responses involved. -/
def createTask (s : StoreState) (d : CreatePayload)
    (postResp : Except ApiError Unit)
    (fetchResp : Except ApiError (List Task)) : StoreState × Option ApiError :=
  match postResp with
  | Except.error e => (s, some e)
  | Except.ok _ => ((fetchTasks s fetchResp).1, none)

/-- updateTaskStatus from App.tsx: awaits the PATCH, then triggers a full
fetchTasks resync; a failed PATCH propagates its error. -/
def updateTaskStatus (s : StoreState) (taskId : String) (status : TaskStatus)
    (patchResp : Except ApiError Unit)
    (fetchResp : Except ApiError (List Task)) : StoreState × Option ApiError :=
  match patchResp with
  | Except.error e => (s, some e)
  | Except.ok _ => ((fetchTasks s fetchResp).1, none)

/-- deleteTask from App.tsx: awaits the DELETE, then triggers a full
fetchTasks resync; a failed DELETE propagates its error. -/
def deleteTask (s : StoreState) (taskId : String)
    (delResp : Except ApiError Unit)
    (fetchResp : Except ApiError (List Task)) : StoreState × Option ApiError :=
  match delResp with
  | Except.error e => (s, some e)
  | Except.ok _ => ((fetchTasks s fetchResp).1, none)

/-- getTaskById from App.tsx: tasks.find over the cached array, comparing
ids; pure function of the current cache. -/
def getTaskById (tasks : List Task) (taskId : String) : Option Task :=
  tasks.find? (fun t => t.id == taskId)

/-- The value the provider places in the context: the data the views read.
The operation closures are over this same state, so the snapshot is the
tasks array and the loading flag. -/
structure TaskContextValue where
  tasks : List Task
  isLoading : Bool
deriving DecidableEq, Repr

/-- useTasks from App.tsx: reads the context; outside a TaskProvider the
context is undefined and useTasks throws, inside it returns the context
value. -/
def useTasks (ctx : Option TaskContextValue) : Except String TaskContextValue :=
  match ctx with
  | none => Except.error "useTasks must be used within a TaskProvider"
  | some c => Except.ok c

/-! Calendar dates, as handled by the create screen. -/

/-- A calendar date (year, month, day), the date part of a JS Date. -/
structure Date where
  year : Nat
  month : Nat
  day : Nat
deriving DecidableEq, Repr

/-- Gregorian leap year rule, as implemented by the JS Date rollover. -/
def isLeapYear (y : Nat) : Bool :=
  (y % 4 == 0 && y % 100 != 0) || y % 400 == 0

/-- Days in a Gregorian month. -/
def daysInMonth (y m : Nat) : Nat :=
  if m == 2 then (if isLeapYear y then 29 else 28)
  else if m == 4 || m == 6 || m == 9 || m == 11 then 30
  else 31

/-- The day after a given date: the effect of setDate(getDate() + 1) on a
JS Date, which rolls over month and year boundaries. -/
def nextCalendarDay (d : Date) : Date :=
  if d.day < daysInMonth d.year d.month then
    { d with day := d.day + 1 }
  else if d.month < 12 then
    { year := d.year, month := d.month + 1, day := 1 }
  else
    { year := d.year + 1, month := 1, day := 1 }

/-- A decimal digit character: the units digit of n. -/
def digitChar (n : Nat) : Char := Nat.digitChar (n % 10)

/-- Two-digit zero-padded decimal rendering. -/
def pad2 (n : Nat) : String :=
  String.mk [digitChar (n / 10), digitChar n]

/-- Four-digit zero-padded decimal rendering. -/
def pad4 (n : Nat) : String :=
  String.mk [digitChar (n / 1000), digitChar (n / 100), digitChar (n / 10),
    digitChar n]

/-- The date part of toISOString, as taken by the create screen with
split on the letter T: the zero-padded YYYY-MM-DD rendering of the date
(for years up to 9999, where toISOString uses the four-digit form). -/
def isoDateOnly (d : Date) : String :=
  pad4 d.year ++ "-" ++ pad2 d.month ++ "-" ++ pad2 d.day

/-- Checks the YYYY-MM-DD shape: ten characters, digits in the year,
month and day positions, dashes at positions four and seven. -/
def isIsoDateFormat (s : String) : Bool :=
  match s.data with
  | [y1, y2, y3, y4, h1, m1, m2, h2, d1, d2] =>
    y1.isDigit && y2.isDigit && y3.isDigit && y4.isDigit &&
    h1 == '-' && h2 == '-' &&
    m1.isDigit && m2.isDigit && d1.isDigit && d2.isDigit
  | _ => false

/-- JS String.prototype.trim: drops leading and trailing whitespace.
Rendered structurally over the character list so that it evaluates. -/
def jsTrim (s : String) : String :=
  String.mk
    (((s.data.dropWhile Char.isWhitespace).reverse.dropWhile
        Char.isWhitespace).reverse)

/-! The create screen (AddTaskScreen). -/

/-- The initial AddTaskScreen state: empty title and description, the due
date defaulted to the day after the current date, not saving. -/
structure AddTaskState where
  title : String
  description : String
  dueDate : Date
  isSaving : Bool
deriving DecidableEq, Repr

/-- AddTaskScreen useState initialisation, as a function of the current
date: the default due date is tomorrow. -/
def initAddTaskState (today : Date) : AddTaskState :=
  { title := "", description := "", dueDate := nextCalendarDay today,
    isSaving := false }

/-- Outcome of a screen event handler: the payload actually POSTed (none
when no request was issued), whether the handler navigated back, and
whether an alert was shown. -/
structure SaveOutcome where
  postedPayload : Option CreatePayload
  navigatedBack : Bool
  alerted : Bool
deriving DecidableEq, Repr

/-- AddTaskScreen handleSave: a blank (empty after trim) title is
rejected with an alert before any request; otherwise the payload carries
the title, description and the YYYY-MM-DD due date, and on createTask
success the screen navigates back, on failure it alerts and stays. -/
def handleSave (title description : String) (dueDate : Date)
    (postOk : Bool) : SaveOutcome :=
  if jsTrim title = "" then
    { postedPayload := none, navigatedBack := false, alerted := true }
  else
    let payload : CreatePayload :=
      { title := title, description := description,
        dueDate := some (isoDateOnly dueDate) }
    if postOk then
      { postedPayload := some payload, navigatedBack := true,
        alerted := false }
    else
      { postedPayload := some payload, navigatedBack := false,
        alerted := true }

/-! The detail screen (TaskDetailScreen). -/

/-- Outcome of a detail screen handler: the localTask state afterwards,
whether an alert was shown, and whether the handler navigated back. -/
structure DetailOutcome where
  localTask : Option Task
  alerted : Bool
  navigatedBack : Bool
deriving DecidableEq, Repr

/-- TaskDetailScreen fetchDetail: on a successful GET of the single task
the response becomes localTask; on failure the screen alerts and
navigates back. -/
def fetchDetail (resp : Except ApiError Task) : DetailOutcome :=
  match resp with
  | Except.ok t =>
    { localTask := some t, alerted := false, navigatedBack := false }
  | Except.error _ =>
    { localTask := none, alerted := true, navigatedBack := true }

/-- The status toggle computed by handleToggleStatus. -/
def toggleOf : TaskStatus → TaskStatus
  | TaskStatus.completed => TaskStatus.pending
  | TaskStatus.pending => TaskStatus.completed

/-- TaskDetailScreen handleToggleStatus: no-op without a loaded task; on
update success it patches localTask and shows a success alert, on failure
it shows an error alert; it never navigates. -/
def handleToggleStatus (localTask : Option Task) (updateOk : Bool) :
    DetailOutcome :=
  match localTask with
  | none => { localTask := none, alerted := false, navigatedBack := false }
  | some t =>
    if updateOk then
      { localTask := some { t with status := toggleOf t.status },
        alerted := true, navigatedBack := false }
    else
      { localTask := some t, alerted := true, navigatedBack := false }

/-- The confirmed branch of TaskDetailScreen handleDelete: on delete
success it navigates back without an error alert; on failure it alerts
and stays. Returns (navigatedBack, alertedError). -/
def handleDeleteConfirmed (deleteOk : Bool) : Bool × Bool :=
  if deleteOk then (true, false) else (false, true)

/-! Event-level model of the provider: every state transition the
TaskProvider performs, as atomic events. setTasks is called only inside
fetchTasks, so a fetch completion is the only event that writes the
tasks array; the HTTP requests of the mutations leave the provider state
untouched (their resync appears as separate fetch events). -/

/-- One atomic provider event. -/
inductive StoreEvent where
  | fetchStart : StoreEvent
  | fetchComplete : Except ApiError (List Task) → StoreEvent
  | httpCreate : CreatePayload → Except ApiError Unit → StoreEvent
  | httpUpdateStatus : String → TaskStatus → Except ApiError Unit → StoreEvent
  | httpDelete : String → Except ApiError Unit → StoreEvent
  | lookupById : String → StoreEvent
deriving Repr

/-- Effect of one event on the provider state. -/
def stepEvent (s : StoreState) : StoreEvent → StoreState
  | StoreEvent.fetchStart => setIsLoading s true
  | StoreEvent.fetchComplete r => applyFetchResponse s r
  | StoreEvent.httpCreate _ _ => s
  | StoreEvent.httpUpdateStatus _ _ _ => s
  | StoreEvent.httpDelete _ _ => s
  | StoreEvent.lookupById _ => s

/-- Folding a sequence of events over the provider state, in resolution
order. -/
def runEvents (s : StoreState) (evs : List StoreEvent) : StoreState :=
  evs.foldl stepEvent s

/-- The data of the last successful fetch completion in an event
sequence, when there is one. -/
def lastGoodFetch : List StoreEvent → Option (List Task)
  | [] => none
  | ev :: rest =>
    match lastGoodFetch rest with
    | some d => some d
    | none =>
      match ev with
      | StoreEvent.fetchComplete (Except.ok d) => some d
      | _ => none

/-! Theorems for the claims. -/

/-- Claim C1: after a successful fetchTasks, the cached task collection
is exactly the sequence returned by the server for GET tasks, contents
and order preserved, with no client-side reordering or filtering. -/
theorem C1_fetchAll_replaces_cache_exactly :
    ∀ (s : StoreState) (serverTasks : List Task),
      (fetchTasks s (Except.ok serverTasks)).1.tasks = serverTasks := by
  intro s serverTasks
  rfl

/-- Claim C2: every mutating operation whose HTTP request succeeds
resolves to a full fetchTasks resync replacing the whole cache (on a
successful resync the cache is exactly the fetched data, not a patch of
the old cache), and when the HTTP request fails the error propagates to
the caller with the cache unchanged. -/
theorem C2_mutations_resync_or_propagate :
    ∀ (s : StoreState) (d : CreatePayload) (taskId : String)
      (st : TaskStatus) (e : ApiError) (r : Except ApiError (List Task))
      (data : List Task),
      createTask s d (Except.ok ()) r = ((fetchTasks s r).1, none) ∧
      (createTask s d (Except.ok ()) (Except.ok data)).1.tasks = data ∧
      createTask s d (Except.error e) r = (s, some e) ∧
      updateTaskStatus s taskId st (Except.ok ()) r = ((fetchTasks s r).1, none) ∧
      (updateTaskStatus s taskId st (Except.ok ()) (Except.ok data)).1.tasks = data ∧
      updateTaskStatus s taskId st (Except.error e) r = (s, some e) ∧
      deleteTask s taskId (Except.ok ()) r = ((fetchTasks s r).1, none) ∧
      (deleteTask s taskId (Except.ok ()) (Except.ok data)).1.tasks = data ∧
      deleteTask s taskId (Except.error e) r = (s, some e) := by
  intro s d taskId st e r data
  exact ⟨rfl, rfl, rfl, rfl, rfl, rfl, rfl, rfl, rfl⟩

/-- Claim C3: a failed fetchTasks leaves the cached collection exactly as
it was, signals the connectivity alert, and the loading flag is false on
exit of fetchTasks whatever the response was. -/
theorem C3_fetch_failure_preserves_cache :
    ∀ (s : StoreState) (e : ApiError) (r : Except ApiError (List Task)),
      (fetchTasks s (Except.error e)).1.tasks = s.tasks ∧
      (fetchTasks s (Except.error e)).2 = true ∧
      (fetchTasks s r).1.isLoading = false := by
  intro s e r
  refine ⟨rfl, rfl, ?_⟩
  cases r <;> rfl

/-- Claim C9: useTasks outside a TaskProvider throws the error message
rather than returning a store, and inside a provider it returns exactly
the context value the provider supplied. -/
theorem C9_useTasks_requires_provider :
    useTasks none =
      Except.error "useTasks must be used within a TaskProvider" ∧
    ∀ c : TaskContextValue, useTasks (some c) = Except.ok c :=
  ⟨rfl, fun _ => rfl⟩

/-- Claim C4: getTaskById is a pure lookup over the cached collection:
absent exactly when no cached task has the id, and any hit is a cached
task bearing the requested id. -/
theorem C4_getTaskById_pure_lookup :
    ∀ (tasks : List Task) (taskId : String),
      (getTaskById tasks taskId = none ↔ ∀ t ∈ tasks, t.id ≠ taskId) ∧
      (∀ t, getTaskById tasks taskId = some t → t ∈ tasks ∧ t.id = taskId) := by
  intro tasks taskId
  constructor
  · rw [getTaskById, List.find?_eq_none]
    simp only [beq_iff_eq]
  · intro t h
    exact ⟨List.mem_of_find?_eq_some h, by
      have := List.find?_some h
      exact beq_iff_eq.mp this⟩

/-- A concrete task for witnesses. -/
def sampleTask : Task :=
  { id := "1", title := "A", description := "", status := TaskStatus.pending,
    dueDate := none }

/-- Witness for C4 at a concrete cache and id. -/
theorem C4_witness : getTaskById [sampleTask] "2" = none :=
  (C4_getTaskById_pure_lookup [sampleTask] "2").1.mpr (by decide)

/-- Claim C5: a blank title (empty after trimming, so empty or
whitespace-only) is rejected by the save handler before any network
call: no POST payload is issued and the validation alert fires,
regardless of the rest of the form. -/
theorem C5_blank_title_no_post :
    ∀ (title description : String) (d : Date) (postOk : Bool),
      jsTrim title = "" →
      (handleSave title description d postOk).postedPayload = none ∧
      (handleSave title description d postOk).alerted = true := by
  intro title description d postOk h
  simp [handleSave, h]

/-- Witness for C5 at a whitespace-only title. -/
theorem C5_witness :
    (handleSave "   " "desc" { year := 2025, month := 1, day := 2 }
      true).postedPayload = none ∧
    (handleSave "   " "desc" { year := 2025, month := 1, day := 2 }
      true).alerted = true :=
  C5_blank_title_no_post "   " "desc" { year := 2025, month := 1, day := 2 }
    true (by decide)

/-- Claim C6: a failed initial detail fetch alerts and navigates back,
and it is the only failure that navigates: a successful detail fetch
stays put, and the failure paths of the status toggle, of the confirmed
delete and of the create save all alert without navigating. -/
theorem C6_only_detail_fetch_failure_navigates :
    ∀ (e : ApiError) (t : Task) (lt : Option Task)
      (title description : String) (d : Date),
      fetchDetail (Except.error e) =
        { localTask := none, alerted := true, navigatedBack := true } ∧
      (fetchDetail (Except.ok t)).navigatedBack = false ∧
      (handleToggleStatus lt false).navigatedBack = false ∧
      (handleToggleStatus lt false).localTask = lt ∧
      handleDeleteConfirmed false = (false, true) ∧
      (handleSave title description d false).navigatedBack = false := by
  intro e t lt title description d
  refine ⟨rfl, rfl, ?_, ?_, rfl, ?_⟩
  · cases lt <;> rfl
  · cases lt <;> rfl
  · by_cases h : jsTrim title = "" <;> simp [handleSave, h]

/-- A digit character produced by digitChar is a decimal digit. -/
theorem isDigit_digitChar (n : Nat) : (digitChar n).isDigit = true := by
  unfold digitChar
  have h : n % 10 < 10 := Nat.mod_lt _ (by omega)
  set k := n % 10 with hk
  interval_cases k <;> rfl

/-- The character list underlying an isoDateOnly rendering. -/
theorem isoDateOnly_data (d : Date) :
    (isoDateOnly d).data =
      [digitChar (d.year / 1000), digitChar (d.year / 100),
       digitChar (d.year / 10), digitChar d.year, '-',
       digitChar (d.month / 10), digitChar d.month, '-',
       digitChar (d.day / 10), digitChar d.day] := rfl

/-- Every isoDateOnly rendering passes the YYYY-MM-DD format check. -/
theorem isoDateOnly_format (d : Date) :
    isIsoDateFormat (isoDateOnly d) = true := by
  have h : isIsoDateFormat (isoDateOnly d) =
      ((digitChar (d.year / 1000)).isDigit &&
       (digitChar (d.year / 100)).isDigit &&
       (digitChar (d.year / 10)).isDigit &&
       (digitChar d.year).isDigit &&
       ('-' == '-') && ('-' == '-') &&
       (digitChar (d.month / 10)).isDigit &&
       (digitChar d.month).isDigit &&
       (digitChar (d.day / 10)).isDigit &&
       (digitChar d.day).isDigit) := rfl
  rw [h]
  simp [isDigit_digitChar]

/-- Claim C7: every creation request the save handler sends carries a
dueDate that is a calendar date with no time component, in YYYY-MM-DD
form: the POSTed payload due date is the isoDateOnly rendering of the
picked date, and that rendering matches the format check. -/
theorem C7_posted_dueDate_iso_format :
    ∀ (title description : String) (d : Date) (postOk : Bool)
      (p : CreatePayload),
      d.year ≤ 9999 →
      (handleSave title description d postOk).postedPayload = some p →
      p.dueDate = some (isoDateOnly d) ∧
      isIsoDateFormat (isoDateOnly d) = true := by
  intro title description d postOk p _ hpost
  refine ⟨?_, isoDateOnly_format d⟩
  by_cases h : jsTrim title = ""
  · simp [handleSave, h] at hpost
  · cases postOk <;>
      · simp [handleSave, h] at hpost
        rw [← hpost]

/-- Witness for C7 at a concrete form submission. -/
theorem C7_witness :
    ({ title := "Buy milk", description := "",
       dueDate := some (isoDateOnly { year := 2025, month := 1, day := 2 }) } :
        CreatePayload).dueDate =
      some (isoDateOnly { year := 2025, month := 1, day := 2 }) ∧
    isIsoDateFormat (isoDateOnly { year := 2025, month := 1, day := 2 }) =
      true :=
  C7_posted_dueDate_iso_format "Buy milk" ""
    { year := 2025, month := 1, day := 2 } true
    { title := "Buy milk", description := "",
      dueDate := some (isoDateOnly { year := 2025, month := 1, day := 2 }) }
    (by decide) (by decide)

/-- Only a successful fetch completion writes the tasks array; every
other event leaves it untouched. -/
theorem stepEvent_tasks_of_no_good_fetch (s : StoreState) (ev : StoreEvent)
    (h : ∀ d : List Task, ev ≠ StoreEvent.fetchComplete (Except.ok d)) :
    (stepEvent s ev).tasks = s.tasks := by
  cases ev with
  | fetchComplete r =>
    cases r with
    | ok d => exact absurd rfl (h d)
    | error e => rfl
  | fetchStart => rfl
  | httpCreate d r => rfl
  | httpUpdateStatus i st r => rfl
  | httpDelete i r => rfl
  | lookupById i => rfl

/-- Last-wins: after any interleaving of provider events resolves, the
cached collection is the data of the last successful fetch completion,
or the starting cache when none completed successfully. -/
theorem runEvents_tasks (s : StoreState) (evs : List StoreEvent) :
    (runEvents s evs).tasks = (lastGoodFetch evs).getD s.tasks := by
  induction evs generalizing s with
  | nil => rfl
  | cons ev rest ih =>
    have h1 : runEvents s (ev :: rest) = runEvents (stepEvent s ev) rest := rfl
    rw [h1, ih]
    cases hlg : lastGoodFetch rest with
    | some dta => simp [lastGoodFetch, hlg]
    | none =>
      cases ev with
      | fetchComplete r =>
        cases r with
        | ok dta =>
          simp [lastGoodFetch, hlg, stepEvent, applyFetchResponse, setTasks,
            setIsLoading]
        | error e =>
          simp [lastGoodFetch, hlg, stepEvent, applyFetchResponse,
            setIsLoading]
      | fetchStart => simp [lastGoodFetch, hlg, stepEvent, setIsLoading]
      | httpCreate d r => simp [lastGoodFetch, hlg, stepEvent]
      | httpUpdateStatus i st r => simp [lastGoodFetch, hlg, stepEvent]
      | httpDelete i r => simp [lastGoodFetch, hlg, stepEvent]
      | lookupById i => simp [lastGoodFetch, hlg, stepEvent]

/-- Claim C8: the cached collection is written only by the resync path.
The fetchTasks run is exactly the two resync events; the HTTP events of
the mutations, the lookup, the fetch start and a failed fetch completion
all leave the cache untouched; and over any interleaving of in-flight
events the last successful fetch response to resolve determines the
cache. -/
theorem C8_cache_only_written_by_resync :
    ∀ (s : StoreState) (evs : List StoreEvent)
      (r : Except ApiError (List Task)) (d : CreatePayload)
      (taskId : String) (st : TaskStatus) (hr : Except ApiError Unit)
      (e : ApiError),
      (runEvents s evs).tasks = (lastGoodFetch evs).getD s.tasks ∧
      (fetchTasks s r).1 =
        stepEvent (stepEvent s StoreEvent.fetchStart)
          (StoreEvent.fetchComplete r) ∧
      (stepEvent s StoreEvent.fetchStart).tasks = s.tasks ∧
      (stepEvent s (StoreEvent.fetchComplete (Except.error e))).tasks =
        s.tasks ∧
      (stepEvent s (StoreEvent.httpCreate d hr)).tasks = s.tasks ∧
      (stepEvent s (StoreEvent.httpUpdateStatus taskId st hr)).tasks =
        s.tasks ∧
      (stepEvent s (StoreEvent.httpDelete taskId hr)).tasks = s.tasks ∧
      (stepEvent s (StoreEvent.lookupById taskId)).tasks = s.tasks := by
  intro s evs r d taskId st hr e
  exact ⟨runEvents_tasks s evs, rfl, rfl, rfl, rfl, rfl, rfl, rfl⟩

/-- Claim C10: the create screen never submits a null dueDate: the form
due date defaults to tomorrow (the day after the current date), and any
payload the save handler POSTs carries a non-null dueDate string. -/
theorem C10_create_screen_dueDate_never_null :
    ∀ (today : Date) (title description : String) (dd : Date)
      (postOk : Bool) (p : CreatePayload),
      (initAddTaskState today).dueDate = nextCalendarDay today ∧
      ((handleSave title description dd postOk).postedPayload = some p →
        p.dueDate ≠ none) := by
  intro today title description dd postOk p
  refine ⟨rfl, ?_⟩
  intro hpost
  by_cases h : jsTrim title = ""
  · simp [handleSave, h] at hpost
  · cases postOk <;>
      · simp [handleSave, h] at hpost
        rw [← hpost]
        simp

/-- Witness for C10 at a concrete submission. -/
theorem C10_witness :
    ({ title := "T", description := "",
       dueDate := some (isoDateOnly { year := 2025, month := 1, day := 2 }) } :
        CreatePayload).dueDate ≠ none :=
  (C10_create_screen_dueDate_never_null { year := 2025, month := 1, day := 1 }
    "T" "" { year := 2025, month := 1, day := 2 } true
    { title := "T", description := "",
      dueDate := some (isoDateOnly { year := 2025, month := 1, day := 2 }) }).2
    (by decide)
